import Mathlib

/-!
Shallow embedding of the temporal resampling and conditional-interpolation
scheduler of VapourSynth-RIFE-ncnn-Vulkan (src/RIFE/plugin.cpp).

Frame indices and counts are modelled as `Nat` (all the relevant C++ `int`
values are non-negative on the validated domain, where C++ `/` and `%` agree
with `Nat` floor division and modulus); `double` scores and thresholds are
modelled as `ℚ` (only order comparisons on them matter here); the VapourSynth
`int64` frame properties are modelled as `ℤ`.
-/

namespace RIFE

/-- The frame properties read or written by the plugin: the
`_SceneChangeNext` integer flag and the `_DurationNum` / `_DurationDen`
pair.  `none` models an absent key (for which `mapGetInt` reports an error
through its `err` out-parameter and returns 0). -/
structure FrameProps where
  sceneChangeNext : Option ℤ
  durationNum : Option ℤ
  durationDen : Option ℤ
  deriving DecidableEq, Repr

/-- Pixel data of a produced output frame, kept symbolic: either a copy of
the source frame at a given index (`vsapi->copyFrame`), or the output of the
external interpolation engine invoked on the source frames at the two given
indices with the given timestep (`filter(src0, src1, dst, timestep, ...)`). -/
inductive Pixels where
  | source : ℕ → Pixels
  | interpolated : ℕ → ℕ → ℚ → Pixels
  deriving DecidableEq, Repr

/-- An output frame: symbolic pixel data plus its properties. -/
structure Frame where
  pixels : Pixels
  props : FrameProps
  deriving DecidableEq, Repr

/-- The per-instance filter data (struct `RIFEData` in plugin.cpp), after
`rifeCreate` has run: `numFrames` is `vi.numFrames` AFTER the line-398
reassignment, i.e. the OUTPUT frame count of the filter. -/
structure RIFEData where
  numFrames : ℕ
  multiplier : ℕ
  divisor : ℕ
  sceneChange : Bool
  skip : Bool
  skip_threshold : ℚ
  deriving DecidableEq, Repr

/-- Line 79: `auto frameNum{ static_cast<int>(n * d->divisor / d->multiplier) }`.
On non-negative `int` values C++ division is floor division. -/
def frameNum (d : RIFEData) (n : ℕ) : ℕ :=
  n * d.divisor / d.multiplier

/-- Line 81: `auto remainder{ n * d->divisor % d->multiplier }`. -/
def remainder (d : RIFEData) (n : ℕ) : ℕ :=
  n * d.divisor % d.multiplier

/-- Line 116: the blend position `static_cast<float>(remainder) / static_cast<float>(d->multiplier)`,
modelled as the exact rational `remainder / multiplier`. -/
def timestep (d : RIFEData) (n : ℕ) : ℚ :=
  (remainder d n : ℚ) / (d.multiplier : ℚ)

/-- Line 85 / line 97: `remainder != 0 && n < d->vi.numFrames - d->multiplier`.
`numFrames - multiplier` is C++ `int` subtraction; when it is negative the
comparison `n < …` is false for every `n ≥ 0`, which coincides with `Nat`
truncated subtraction giving `0` there. -/
def needsSecond (d : RIFEData) (n : ℕ) : Prop :=
  remainder d n ≠ 0 ∧ n < d.numFrames - d.multiplier

instance (d : RIFEData) (n : ℕ) : Decidable (needsSecond d n) := by
  unfold needsSecond; infer_instance

/-- The frame requests issued in the `arInitial` phase: indices requested
from the source node `d->node` and from the metric node `d->psnr`. -/
structure Requests where
  sources : List ℕ
  metrics : List ℕ
  deriving DecidableEq, Repr

/-- Lines 83–89, the `arInitial` branch of `rifeGetFrame`: always request
`frameNum` from the source node; additionally request `frameNum + 1` when
`remainder != 0 && n < d->vi.numFrames - d->multiplier`; request the metric
frame `frameNum` from `d->psnr` when `d->skip` is set. -/
def arInitialRequests (d : RIFEData) (n : ℕ) : Requests :=
  { sources :=
      frameNum d n :: (if needsSecond d n then [frameNum d n + 1] else [])
    metrics := if d.skip then [frameNum d n] else [] }

/-- Modelled from the spec: `vsh::muldivRational` lives in VSHelper4.h, which
is not part of src/.  Per the spec it applies `new = old × divisor / multiplier`
as an exact rational multiply-divide with reduction to lowest terms via GCD:
multiply numerator by `mul`, denominator by `div`, then divide both by their
greatest common divisor. -/
def muldivRational (num den mul div : ℤ) : ℤ × ℤ :=
  let n := num * mul
  let d := den * div
  let g : ℤ := (Int.gcd n d : ℤ)
  (n / g, d / g)

/-- Lines 123–131: read `_DurationNum` and `_DurationDen` from the produced
frame's property map; only when BOTH are present (neither `errNum` nor
`errDen` set), rescale them by `divisor / multiplier` via `muldivRational`
and write both back with `maReplace`; otherwise leave the map untouched. -/
def rescaleProps (d : RIFEData) (p : FrameProps) : FrameProps :=
  match p.durationNum, p.durationDen with
  | some num, some den =>
      let q := muldivRational num den (d.divisor : ℤ) (d.multiplier : ℤ)
      { p with durationNum := some q.1, durationDen := some q.2 }
  | some _, none => p
  | none, _ => p

/-- The duration rescale applied to a whole output frame: pixel data is
untouched, only the property map changes. -/
def rescaleDuration (d : RIFEData) (f : Frame) : Frame :=
  { f with props := rescaleProps d f.props }

/-- The scene-change flag as computed at lines 98–103: `bool sceneChange{}`
then, only when `d->sceneChange` is set,
`sceneChange = !!vsapi->mapGetInt(getFramePropertiesRO(src0), "_SceneChangeNext", 0, &err)`
(an absent key yields 0, hence `false`).  Note it is read from `src0`, the
frame at `frameNum`. -/
def sceneChangeFlag (d : RIFEData) (clip : ℕ → FrameProps) (n : ℕ) : Bool :=
  if d.sceneChange then decide ((clip (frameNum d n)).sceneChangeNext.getD 0 ≠ 0)
  else false

/-- The similarity score as computed at lines 99–108: `double psnr_y{ -1.0 }`
then, only when `d->skip` is set, `psnr_y = mapGetFloat(props(psnr frame), "psnr_y", …)`
where the psnr frame is the metric frame at index `frameNum`. -/
def psnrScore (d : RIFEData) (psnr : ℕ → ℚ) (n : ℕ) : ℚ :=
  if d.skip then psnr (frameNum d n) else -1

/-- Lines 90–136, the `arAllFramesReady` branch of `rifeGetFrame` for output
index `n`.  `clip i` gives the properties of source frame `i`; `psnr i` gives
the `psnr_y` score attached to metric frame `i`.  When interpolation is
possible (`remainder != 0 && n < numFrames - multiplier`): if
`sceneChange || psnr_y >= d->skip_threshold` the frame is a copy of `src0`,
otherwise the engine blends `src0` and `src1` (the destination frame takes its
properties from `src0` via `newVideoFrame(..., src0, ...)`).  Otherwise the
frame is a copy of `src0`.  In every case the duration properties are then
rescaled. -/
def produce (d : RIFEData) (clip : ℕ → FrameProps) (psnr : ℕ → ℚ) (n : ℕ) : Frame :=
  let fNum := frameNum d n
  let dst : Frame :=
    if needsSecond d n then
      if sceneChangeFlag d clip n = true ∨ psnrScore d psnr n ≥ d.skip_threshold then
        { pixels := .source fNum, props := clip fNum }
      else
        { pixels := .interpolated fNum (fNum + 1) (timestep d n), props := clip fNum }
    else
      { pixels := .source fNum, props := clip fNum }
  rescaleDuration d dst

/-- `INT_MAX` for the 32-bit `int` arithmetic of the plugin. -/
def INT_MAX : ℕ := 2 ^ 31 - 1

/-- Line 223: construction is aborted with "resulting clip is too long" when
`d->vi.numFrames / d->divisor > INT_MAX / d->multiplier` (integer division on
both sides; `srcFrames` is the SOURCE frame count, before the line-398
reassignment).  This predicate states that the guard passes. -/
def overflowGuardOk (srcFrames m div : ℕ) : Prop :=
  ¬ srcFrames / div > INT_MAX / m

instance (srcFrames m div : ℕ) : Decidable (overflowGuardOk srcFrames m div) := by
  unfold overflowGuardOk; infer_instance

/-- Line 398: `d->vi.numFrames = static_cast<int>(d->vi.numFrames * d->multiplier / d->divisor)`,
the output frame count, as the mathematical value `⌊srcFrames·m/div⌋`. -/
def outputCount (srcFrames m div : ℕ) : ℕ :=
  srcFrames * m / div

/-- The configuration-time validation of `rifeCreate` relevant to the
scheduler (lines 205–224): `multiplier > 1`, `divisor > 0`,
`0 ≤ skip_threshold ≤ 60`, source clip has at least 2 frames, and the
overflow guard passes. -/
structure ValidConfig (srcFrames : ℕ) (d : RIFEData) : Prop where
  mult_ge : 2 ≤ d.multiplier
  div_ge : 1 ≤ d.divisor
  thr_lo : 0 ≤ d.skip_threshold
  thr_hi : d.skip_threshold ≤ 60
  frames_ge : 2 ≤ srcFrames
  guard : overflowGuardOk srcFrames d.multiplier d.divisor
  out_frames : d.numFrames = outputCount srcFrames d.multiplier d.divisor

/-- State of one host worker thread with respect to the gate of `filter`
(lines 69–71): not yet at the engine call, inside
`acquire(); rife->process(...); release()`, or finished (`ok` records whether
the engine call succeeded; the release at line 71 runs either way, since
`process` returns on both outcomes). -/
inductive ThreadState where
  | idle
  | processing
  | done (ok : Bool)
  deriving DecidableEq, Repr

/-- Global state of the concurrency gate: the `std::counting_semaphore`
counter created with capacity `gpu_thread` (line 317) together with the
states of the worker threads the host runs `filter` on. -/
structure GateState where
  tokens : ℕ
  threads : List ThreadState
  deriving DecidableEq, Repr

/-- Initial gate state: the semaphore holds its full capacity `cap` and all
`k` threads are before their engine call. -/
def GateState.init (cap k : ℕ) : GateState :=
  { tokens := cap, threads := List.replicate k .idle }

/-- Whether a thread is currently inside the engine call. -/
def isProcessing : ThreadState → Bool
  | .processing => true
  | _ => false

/-- Number of engine calls currently in flight. -/
def inFlight (s : GateState) : ℕ :=
  s.threads.countP isProcessing

/-- Interleaving semantics of `filter`: a thread enters the engine call only
by decrementing a strictly positive semaphore counter (`acquire`, line 69),
and on leaving the call — successful or not — increments it back
(`release`, line 71). -/
inductive GateStep : GateState → GateState → Prop where
  | acquire (tks : ℕ) (pre post : List ThreadState) :
      GateStep ⟨tks + 1, pre ++ .idle :: post⟩ ⟨tks, pre ++ .processing :: post⟩
  | release (tks : ℕ) (ok : Bool) (pre post : List ThreadState) :
      GateStep ⟨tks, pre ++ .processing :: post⟩ ⟨tks + 1, pre ++ .done ok :: post⟩

/-- Reachability of the gate. -/
def GateReachable (cap k : ℕ) (s : GateState) : Prop :=
  Relation.ReflTransGen GateStep (GateState.init cap k) s

/-- The two outcomes of the spec's SkipDecision component. -/
inductive Decision where
  | passthrough
  | synthesize
  deriving DecidableEq, Repr

/-- SkipDecision written from the spec's words (section 4.3), to be compared
against the code: (1) scene-change detection enabled and flag true ⇒
PASSTHROUGH regardless of score; (2) else skip-by-metric enabled and
`score ≥ threshold` (inclusive) ⇒ PASSTHROUGH; (3) else SYNTHESIZE. -/
def decideSpec (scEnabled flag skipEnabled : Bool) (score thr : ℚ) : Decision :=
  if scEnabled = true ∧ flag = true then .passthrough
  else if skipEnabled = true ∧ score ≥ thr then .passthrough
  else .synthesize

/-! Helper lemmas -/

/-- Rescaling duration metadata never changes the pixel data. -/
theorem rescaleDuration_pixels (d : RIFEData) (f : Frame) :
    (rescaleDuration d f).pixels = f.pixels := rfl

/-- On every branch of `rifeGetFrame`, the produced frame's properties are
those of the source frame at `frameNum`, with the duration rescale applied. -/
theorem produce_props (d : RIFEData) (clip : ℕ → FrameProps) (psnr : ℕ → ℚ)
    (n : ℕ) :
    (produce d clip psnr n).props = rescaleProps d (clip (frameNum d n)) := by
  unfold produce rescaleDuration
  split_ifs <;> rfl

/-- The pixel data produced by `rifeGetFrame`, by cases on the code's
branch structure. -/
theorem produce_pixels (d : RIFEData) (clip : ℕ → FrameProps) (psnr : ℕ → ℚ)
    (n : ℕ) :
    (produce d clip psnr n).pixels =
      if needsSecond d n then
        if sceneChangeFlag d clip n = true ∨ psnrScore d psnr n ≥ d.skip_threshold
        then Pixels.source (frameNum d n)
        else Pixels.interpolated (frameNum d n) (frameNum d n + 1) (timestep d n)
      else Pixels.source (frameNum d n) := by
  unfold produce rescaleDuration
  split_ifs <;> rfl

/-! Section C1: timeline mapping -/

/-- Claim C1: For every output index `n`, the computed source index equals
`⌊n·divisor/multiplier⌋`, and the blend fraction
`remainder/multiplier` lies in `[0, 1)` and vanishes exactly when
`n·divisor` is a multiple of `multiplier`. -/
theorem timeline_map_correct (d : RIFEData) (n : ℕ) (hm : 2 ≤ d.multiplier) :
    frameNum d n = ⌊((n * d.divisor : ℕ) : ℚ) / ((d.multiplier : ℕ) : ℚ)⌋₊ ∧
    0 ≤ timestep d n ∧ timestep d n < 1 ∧
    (timestep d n = 0 ↔ d.multiplier ∣ n * d.divisor) := by
  have hm0 : 0 < d.multiplier := by omega
  have hmQ : (0 : ℚ) < (d.multiplier : ℚ) := by exact_mod_cast hm0
  refine ⟨?_, ?_, ?_, ?_⟩
  · rw [Nat.floor_div_nat]
    rfl
  · exact div_nonneg (Nat.cast_nonneg _) (Nat.cast_nonneg _)
  · rw [timestep, div_lt_one hmQ]
    exact_mod_cast Nat.mod_lt _ hm0
  · rw [timestep, div_eq_zero_iff]
    constructor
    · rintro (h | h)
      · have : remainder d n = 0 := by exact_mod_cast h
        exact Nat.dvd_iff_mod_eq_zero.mpr this
      · exact absurd h hmQ.ne'
    · intro h
      left
      have : remainder d n = 0 := Nat.dvd_iff_mod_eq_zero.mp h
      exact_mod_cast this

/-- Concrete instance of C1 at `multiplier = 2`, `divisor = 1`, `n = 3`. -/
theorem timeline_map_correct_witness :
    0 ≤ timestep ⟨6, 2, 1, false, false, 60⟩ 3 ∧
    timestep ⟨6, 2, 1, false, false, 60⟩ 3 < 1 :=
  ⟨(timeline_map_correct ⟨6, 2, 1, false, false, 60⟩ 3 (by decide)).2.1,
   (timeline_map_correct ⟨6, 2, 1, false, false, 60⟩ 3 (by decide)).2.2.1⟩

/-! Section C2: boundary pass-through -/

/-- Claim C2: For an output index with nonzero blend fraction in the boundary
region `n ≥ numFrames - multiplier` (where `numFrames` is the stored output
frame count), interpolation is never attempted: only the frame at `frameNum`
is requested from the source node, and the produced frame is a pixel copy of
that frame (in particular it is not an engine output). -/
theorem boundary_forces_passthrough (d : RIFEData) (clip : ℕ → FrameProps)
    (psnr : ℕ → ℚ) (n : ℕ) (hr : remainder d n ≠ 0)
    (hb : d.numFrames - d.multiplier ≤ n) :
    (arInitialRequests d n).sources = [frameNum d n] ∧
    (produce d clip psnr n).pixels = Pixels.source (frameNum d n) := by
  have hns : ¬ needsSecond d n := by
    rintro ⟨-, hlt⟩
    omega
  constructor
  · simp [arInitialRequests, hns]
  · rw [produce_pixels, if_neg hns]

/-- Concrete instance of C2: `multiplier = 2`, `divisor = 1`, 6 output
frames, output index `n = 5` (blend fraction 1/2, boundary region). -/
theorem boundary_forces_passthrough_witness :
    (arInitialRequests ⟨6, 2, 1, false, false, 60⟩ 5).sources = [2] ∧
    (produce ⟨6, 2, 1, false, false, 60⟩ (fun _ => ⟨none, none, none⟩)
      (fun _ => 0) 5).pixels = Pixels.source 2 :=
  boundary_forces_passthrough ⟨6, 2, 1, false, false, 60⟩
    (fun _ => ⟨none, none, none⟩) (fun _ => 0) 5 (by decide) (by decide)

/-! Section C3: skip decision -/

/-- Claim C3: When a candidate interpolation point is evaluated (nonzero blend
fraction, not at the boundary) and the threshold is in its validated range,
the code's decision agrees with the spec's SkipDecision precedence:
scene-change enabled and flag set ⇒ pass-through regardless of score; else
skip enabled and `score ≥ threshold` (inclusive) ⇒ pass-through; else
synthesize.  Every pass-through copies the FIRST source frame of the pair. -/
theorem decision_matches_spec (d : RIFEData) (clip : ℕ → FrameProps)
    (psnr : ℕ → ℚ) (n : ℕ) (hn : needsSecond d n)
    (hthr : 0 ≤ d.skip_threshold) :
    (produce d clip psnr n).pixels =
      match decideSpec d.sceneChange
          (decide ((clip (frameNum d n)).sceneChangeNext.getD 0 ≠ 0))
          d.skip (psnr (frameNum d n)) d.skip_threshold with
      | .passthrough => Pixels.source (frameNum d n)
      | .synthesize =>
          Pixels.interpolated (frameNum d n) (frameNum d n + 1) (timestep d n) := by
  rw [produce_pixels, if_pos hn]
  unfold decideSpec sceneChangeFlag psnrScore
  rcases hsc : d.sceneChange <;> rcases hsk : d.skip <;>
      rcases hf : decide ((clip (frameNum d n)).sceneChangeNext.getD 0 ≠ 0) <;>
    (try simp only [hsc, hsk, hf]) <;> (try simp) <;>
    first
      | rfl
      | linarith
      | (split_ifs <;> first | rfl | linarith | tauto)

/-- Concrete instance of C3: skip enabled, score exactly equal to the
threshold 60 ⇒ pass-through of the first source frame. -/
theorem decision_matches_spec_witness :
    (produce ⟨6, 2, 1, false, true, 60⟩ (fun _ => ⟨none, none, none⟩)
      (fun _ => 60) 1).pixels = Pixels.source 0 := by
  have h := decision_matches_spec ⟨6, 2, 1, false, true, 60⟩
    (fun _ => ⟨none, none, none⟩) (fun _ => 60) 1 (by decide) (by decide)
  simpa [decideSpec] using h

/-! Section C4: the overflow guard -/

/-- A configuration that the `rifeCreate` validation accepts although
`numFrames * multiplier` exceeds `INT_MAX`: source clip of 3 frames,
`divisor = 2`, `multiplier = 2^30`.  The `numFrames` field holds the
mathematical value of the line-398 output-count computation. -/
def overflowData : RIFEData :=
  { numFrames := 1610612736, multiplier := 2 ^ 30, divisor := 2,
    sceneChange := false, skip := false, skip_threshold := 60 }

/-- Claim C4: (refuting the claim) The configuration `overflowData` with a
3-frame source clip passes every configuration-time check of `rifeCreate` —
in particular the line-223 guard `numFrames / divisor > INT_MAX / multiplier`
does not fire — yet `sourceFrameCount * multiplier = 3·2^30` does NOT fit a
signed 32-bit integer, so the line-398 computation
`numFrames * multiplier / divisor` (and the per-call products `n * divisor`
near the top of the output range) overflow `int`. -/
theorem overflow_guard_insufficient :
    ValidConfig 3 overflowData ∧ INT_MAX < 3 * overflowData.multiplier :=
  ⟨⟨by decide, by decide, by decide, by decide, by decide, by decide,
    by decide⟩, by decide⟩

/-! Section C5: metric frame requests -/

/-- A configuration with skip-by-metric enabled (`multiplier = 2`,
`divisor = 1`, 6 output frames). -/
def skipOnData : RIFEData :=
  { numFrames := 6, multiplier := 2, divisor := 1, sceneChange := false,
    skip := true, skip_threshold := 60 }

/-- Claim C5 counterexample: At output index 0 the blend fraction is zero, so
no second source frame is needed (a pass-through candidate) — yet the
request phase still requests the metric frame at `frameNum`, because line 88
tests only `d->skip`.  This refutes the claim that no metric frame is
requested for a pass-through candidate. -/
theorem metric_requested_without_second_frame :
    ¬ needsSecond skipOnData 0 ∧
    (arInitialRequests skipOnData 0).metrics = [frameNum skipOnData 0] := by
  decide

/-- Claim C5 amended: In the request phase for output index `n`, the metric
frame at `frameNum` is requested if and only if skip-by-metric is enabled —
regardless of whether a second source frame is needed. -/
theorem metric_request_iff_skip (d : RIFEData) (n : ℕ) :
    frameNum d n ∈ (arInitialRequests d n).metrics ↔ d.skip = true := by
  unfold arInitialRequests
  cases d.skip <;> simp

/-! Section C6: which frames the skip signals are read from -/

/-- A configuration with scene-change detection enabled. -/
def sceneData : RIFEData :=
  { numFrames := 6, multiplier := 2, divisor := 1, sceneChange := true,
    skip := false, skip_threshold := 60 }

/-- A source clip whose frame 0 carries `_SceneChangeNext = 1` while every
other frame carries `_SceneChangeNext = 0`. -/
def sceneClip : ℕ → FrameProps := fun i =>
  { sceneChangeNext := if i = 0 then some 1 else some 0,
    durationNum := none, durationDen := none }

/-- Claim C6 counterexample: At output index 1 the candidate pair is
`(0, 1)`.  The SECOND candidate frame's scene-change flag is 0 and
skip-by-metric is disabled, so under the claim (flag read from the second
frame) the engine would synthesize — but the code reads the flag from the
FIRST frame (`src0`, line 103), whose flag is 1, and passes through. -/
theorem scene_flag_read_from_first_cex :
    needsSecond sceneData 1 ∧
    sceneData.sceneChange = true ∧ sceneData.skip = false ∧
    (sceneClip (frameNum sceneData 1 + 1)).sceneChangeNext = some 0 ∧
    (produce sceneData sceneClip (fun _ => 0) 1).pixels =
      Pixels.source (frameNum sceneData 1) := by
  decide

/-- Claim C6 amended: Both skip signals are read from metadata aligned with
the FIRST candidate source frame: the scene-change flag from the
`_SceneChangeNext` property of the frame at `frameNum` and the similarity
score from the metric frame at `frameNum`.  Consequently the produced frame
is unchanged if the source properties and metric scores are modified at
every index other than `frameNum`. -/
theorem skip_signals_read_from_first (d : RIFEData)
    (clip clip2 : ℕ → FrameProps) (psnr psnr2 : ℕ → ℚ) (n : ℕ)
    (hc : clip (frameNum d n) = clip2 (frameNum d n))
    (hp : psnr (frameNum d n) = psnr2 (frameNum d n)) :
    produce d clip psnr n = produce d clip2 psnr2 n := by
  simp only [produce, sceneChangeFlag, psnrScore, hc, hp]

/-- A variant of `sceneClip` differing at every index except 0. -/
def sceneClipAlt : ℕ → FrameProps := fun i =>
  { sceneChangeNext := if i = 0 then some 1 else none,
    durationNum := none, durationDen := none }

/-- Concrete instance of the amended C6: changing the metadata of all source
frames other than frame 0 does not change output frame 1. -/
theorem skip_signals_read_from_first_witness :
    produce sceneData sceneClip (fun _ => 0) 1 =
      produce sceneData sceneClipAlt (fun _ => 0) 1 :=
  skip_signals_read_from_first sceneData sceneClip sceneClipAlt
    (fun _ => 0) (fun _ => 0) 1 (by decide) rfl

/-! Section C7: frame requests stay in bounds -/

/-- Claim C7: Under a validated configuration with source frame count `srcF`,
every output index `n` below the output count maps to a source index
strictly below `srcF`; and whenever a second source frame is needed,
`frameNum + 1` is also strictly below `srcF`, so no frame request goes past
the end of the source sequence. -/
theorem frame_requests_in_bounds (srcF : ℕ) (d : RIFEData) (n : ℕ)
    (hv : ValidConfig srcF d) (hn : n < d.numFrames) :
    frameNum d n < srcF ∧ (needsSecond d n → frameNum d n + 1 < srcF) := by
  obtain ⟨hm, hdv, -, -, hF, -, hout⟩ := hv
  rw [hout] at hn
  unfold outputCount at hn
  have hm0 : 0 < d.multiplier := by omega
  have hdv0 : 0 < d.divisor := by omega
  constructor
  · have h1 : (n + 1) * d.divisor ≤ srcF * d.multiplier :=
      (Nat.le_div_iff_mul_le hdv0).mp hn
    rw [add_mul, one_mul] at h1
    exact (Nat.div_lt_iff_lt_mul hm0).mpr (by omega)
  · rintro ⟨-, hlt⟩
    rw [hout] at hlt
    unfold outputCount at hlt
    have h2 : n + d.multiplier + 1 ≤ srcF * d.multiplier / d.divisor := by omega
    have h3 : (n + d.multiplier + 1) * d.divisor ≤ srcF * d.multiplier :=
      (Nat.le_div_iff_mul_le hdv0).mp h2
    have h4 : d.multiplier ≤ d.multiplier * d.divisor :=
      Nat.le_mul_of_pos_right _ hdv0
    have h5 : (srcF - 1) * d.multiplier = srcF * d.multiplier - d.multiplier := by
      rw [Nat.sub_mul, one_mul]
    have h6 : n * d.divisor < (srcF - 1) * d.multiplier := by
      rw [add_mul, add_mul] at h3
      omega
    have h7 : frameNum d n < srcF - 1 := (Nat.div_lt_iff_lt_mul hm0).mpr h6
    omega

/-- Concrete instance of C7: 3 source frames, `multiplier = 2`,
`divisor = 1`, output index 3 needs the pair `(1, 2)`, both in bounds. -/
theorem frame_requests_in_bounds_witness :
    frameNum ⟨6, 2, 1, false, false, 60⟩ 3 < 3 ∧
    frameNum ⟨6, 2, 1, false, false, 60⟩ 3 + 1 < 3 :=
  ⟨(frame_requests_in_bounds 3 ⟨6, 2, 1, false, false, 60⟩ 3
      ⟨by decide, by decide, by decide, by decide, by decide, by decide,
        by decide⟩ (by decide)).1,
   (frame_requests_in_bounds 3 ⟨6, 2, 1, false, false, 60⟩ 3
      ⟨by decide, by decide, by decide, by decide, by decide, by decide,
        by decide⟩ (by decide)).2 (by decide)⟩

/-! Section C8: duration rescaling -/

/-- The spec-modelled `muldivRational` computes the exact rational
`(num·mul)/(den·div)` in lowest terms with a positive denominator, provided
the new denominator `den·div` is positive. -/
theorem muldivRational_spec (num den mul div : ℤ) (hden : 0 < den * div) :
    ((muldivRational num den mul div).1 : ℚ) /
        ((muldivRational num den mul div).2 : ℚ) =
      ((num * mul : ℤ) : ℚ) / ((den * div : ℤ) : ℚ) ∧
    0 < (muldivRational num den mul div).2 ∧
    Int.gcd (muldivRational num den mul div).1
      (muldivRational num den mul div).2 = 1 := by
  have key : ∀ a b : ℤ, 0 < b →
      ((a / (Int.gcd a b : ℤ) : ℤ) : ℚ) / ((b / (Int.gcd a b : ℤ) : ℤ) : ℚ)
          = (a : ℚ) / (b : ℚ) ∧
      0 < b / (Int.gcd a b : ℤ) ∧
      Int.gcd (a / (Int.gcd a b : ℤ)) (b / (Int.gcd a b : ℤ)) = 1 := by
    intro a b hb
    have hg : 0 < Int.gcd a b := Int.gcd_pos_iff.mpr (Or.inr hb.ne')
    have hgz : ((Int.gcd a b : ℤ)) ≠ 0 := by exact_mod_cast hg.ne'
    have hbq : 0 < b / (Int.gcd a b : ℤ) := by
      have hcancel : b / (Int.gcd a b : ℤ) * (Int.gcd a b : ℤ) = b :=
        Int.ediv_mul_cancel Int.gcd_dvd_right
      by_contra hle
      push_neg at hle
      have hgn : (0 : ℤ) ≤ (Int.gcd a b : ℤ) := Int.natCast_nonneg _
      nlinarith
    refine ⟨?_, hbq, Int.gcd_div_gcd_div_gcd hg⟩
    rw [Int.cast_div_charZero (Int.gcd_dvd_left : ((Int.gcd a b : ℤ)) ∣ a),
      Int.cast_div_charZero (Int.gcd_dvd_right : ((Int.gcd a b : ℤ)) ∣ b)]
    have hgQ : ((Int.gcd a b : ℤ) : ℚ) ≠ 0 := by exact_mod_cast hg.ne'
    have hbQ : (b : ℚ) ≠ 0 := by exact_mod_cast hb.ne'
    field_simp
  exact key (num * mul) (den * div) hden

/-- Claim C8: On every branch of `rifeGetFrame` (pass-through, boundary and
synthesized): when both duration properties are present on the frame (which
inherits them from the source frame at `frameNum`) and the source
denominator is positive, they are replaced by the exact rational product
`old · divisor / multiplier` reduced to lowest terms with a positive
denominator; when either is absent, both are left untouched. -/
theorem duration_rescale_correct (d : RIFEData) (clip : ℕ → FrameProps)
    (psnr : ℕ → ℚ) (n : ℕ) (hm : 1 ≤ d.multiplier) :
    (∀ num den : ℤ,
      (clip (frameNum d n)).durationNum = some num →
      (clip (frameNum d n)).durationDen = some den → 0 < den →
      ∃ num2 den2 : ℤ,
        (produce d clip psnr n).props.durationNum = some num2 ∧
        (produce d clip psnr n).props.durationDen = some den2 ∧
        (num2 : ℚ) / (den2 : ℚ)
            = ((num * d.divisor : ℤ) : ℚ) / ((den * d.multiplier : ℤ) : ℚ) ∧
        0 < den2 ∧ Int.gcd num2 den2 = 1) ∧
    ((clip (frameNum d n)).durationNum = none ∨
        (clip (frameNum d n)).durationDen = none →
      (produce d clip psnr n).props.durationNum
          = (clip (frameNum d n)).durationNum ∧
      (produce d clip psnr n).props.durationDen
          = (clip (frameNum d n)).durationDen) := by
  rw [produce_props]
  constructor
  · intro num den hnum hden hpos
    have hdenm : 0 < den * (d.multiplier : ℤ) := by
      have : (0 : ℤ) < (d.multiplier : ℤ) := by exact_mod_cast hm
      positivity
    obtain ⟨hexact, hdpos, hred⟩ :=
      muldivRational_spec num den (d.divisor : ℤ) (d.multiplier : ℤ) hdenm
    refine ⟨(muldivRational num den (d.divisor : ℤ) (d.multiplier : ℤ)).1,
      (muldivRational num den (d.divisor : ℤ) (d.multiplier : ℤ)).2,
      ?_, ?_, hexact, hdpos, hred⟩ <;>
      simp [rescaleProps, hnum, hden]
  · intro h
    have hkeep : rescaleProps d (clip (frameNum d n)) = clip (frameNum d n) := by
      rcases hd2 : (clip (frameNum d n)).durationNum with _ | v1 <;>
        rcases hd3 : (clip (frameNum d n)).durationDen with _ | v2 <;>
        simp_all [rescaleProps]
    rw [hkeep]
    exact ⟨rfl, rfl⟩

/-- Concrete instance of C8: duration `1/24` rescaled by
`divisor/multiplier = 1/2` becomes `1/48` in lowest terms. -/
theorem duration_rescale_correct_witness :
    ∃ num2 den2 : ℤ,
      (produce ⟨6, 2, 1, false, false, 60⟩ (fun _ => ⟨none, some 1, some 24⟩)
        (fun _ => 0) 0).props.durationNum = some num2 ∧
      (produce ⟨6, 2, 1, false, false, 60⟩ (fun _ => ⟨none, some 1, some 24⟩)
        (fun _ => 0) 0).props.durationDen = some den2 ∧
      (num2 : ℚ) / (den2 : ℚ)
          = ((1 * (1 : ℕ) : ℤ) : ℚ) / ((24 * (2 : ℕ) : ℤ) : ℚ) ∧
      0 < den2 ∧ Int.gcd num2 den2 = 1 :=
  (duration_rescale_correct ⟨6, 2, 1, false, false, 60⟩
      (fun _ => ⟨none, some 1, some 24⟩) (fun _ => 0) 0 (by decide)).1
    1 24 rfl rfl (by decide)

/-! Section C9: the concurrency gate -/

/-- Claim C9: From the initial state with full capacity `cap ≥ 1`, in every
reachable state of the gate protocol of `filter` the number of engine calls
in flight never exceeds `cap`, the in-flight count and the semaphore counter
always sum to `cap` (each held token is accounted for, none is leaked on
either exit path), and whenever no call is in flight — in particular after
all calls have completed or failed — the token count is back to `cap`. -/
theorem gate_bounds_in_flight (cap k : ℕ) (s : GateState) (hcap : 1 ≤ cap)
    (h : GateReachable cap k s) :
    inFlight s ≤ cap ∧ inFlight s + s.tokens = cap ∧
    (inFlight s = 0 → s.tokens = cap) := by
  have hinv : inFlight s + s.tokens = cap := by
    induction h with
    | refl =>
        have h0 : inFlight (GateState.init cap k) = 0 :=
          List.countP_eq_zero.mpr fun t ht => by
            rw [List.eq_of_mem_replicate ht]; simp [isProcessing]
        rw [h0]
        simp [GateState.init]
    | tail _ hstep ih =>
        cases hstep with
        | acquire tks pre post =>
            simp only [inFlight, List.countP_append, List.countP_cons,
              isProcessing] at ih ⊢
            simp_all
            omega
        | release tks ok pre post =>
            simp only [inFlight, List.countP_append, List.countP_cons,
              isProcessing] at ih ⊢
            simp_all
            omega
  exact ⟨by omega, hinv, fun h0 => by omega⟩

/-- Concrete instance of C9: capacity 1, one thread acquiring the token,
running the engine call and releasing it; afterwards the counter is back
at 1. -/
theorem gate_bounds_in_flight_witness :
    inFlight ⟨1, [ThreadState.done true]⟩ ≤ 1 ∧
    inFlight ⟨1, [ThreadState.done true]⟩
        + GateState.tokens ⟨1, [ThreadState.done true]⟩ = 1 ∧
    (inFlight ⟨1, [ThreadState.done true]⟩ = 0 →
      GateState.tokens ⟨1, [ThreadState.done true]⟩ = 1) :=
  gate_bounds_in_flight 1 1 ⟨1, [ThreadState.done true]⟩ (by decide)
    (Relation.ReflTransGen.tail
      (Relation.ReflTransGen.tail Relation.ReflTransGen.refl
        (GateStep.acquire 0 [] []))
      (GateStep.release 0 true [] []))

/-! Section C10: skip disabled keeps the sentinel score -/

/-- Claim C10: With skip-by-metric disabled and the threshold in its validated
range `[0, 60]`, the similarity score used by the decision stays at its
sentinel value `-1`, the comparison `score ≥ threshold` is therefore false,
and a non-boundary candidate is passed through only when the scene-change
flag fires — otherwise it is synthesized. -/
theorem skip_disabled_sentinel (d : RIFEData) (clip : ℕ → FrameProps)
    (psnr : ℕ → ℚ) (n : ℕ) (hskip : d.skip = false)
    (hthr : 0 ≤ d.skip_threshold) (hn : needsSecond d n) :
    psnrScore d psnr n = -1 ∧
    ¬ psnrScore d psnr n ≥ d.skip_threshold ∧
    (produce d clip psnr n).pixels =
      (if sceneChangeFlag d clip n = true then Pixels.source (frameNum d n)
       else Pixels.interpolated (frameNum d n) (frameNum d n + 1)
         (timestep d n)) := by
  have hs : psnrScore d psnr n = -1 := by simp [psnrScore, hskip]
  have hlt : ¬ psnrScore d psnr n ≥ d.skip_threshold := by
    rw [hs]
    intro hge
    linarith
  refine ⟨hs, hlt, ?_⟩
  rw [produce_pixels, if_pos hn]
  rcases hf : sceneChangeFlag d clip n with _ | _
  · rw [if_neg, if_neg]
    · simp [hf]
    · rintro (h | h)
      · simp [hf] at h
      · exact hlt h
  · rw [if_pos, if_pos rfl]
    left
    rfl

/-- Concrete instance of C10: skip disabled, scene-change flag not set at
the candidate, so output index 1 is synthesized from frames 0 and 1. -/
theorem skip_disabled_sentinel_witness :
    psnrScore ⟨6, 2, 1, false, false, 60⟩ (fun _ => 0) 1 = -1 ∧
    ¬ psnrScore ⟨6, 2, 1, false, false, 60⟩ (fun _ => 0) 1
        ≥ RIFEData.skip_threshold ⟨6, 2, 1, false, false, 60⟩ ∧
    (produce ⟨6, 2, 1, false, false, 60⟩ (fun _ => ⟨none, none, none⟩)
        (fun _ => 0) 1).pixels =
      (if sceneChangeFlag ⟨6, 2, 1, false, false, 60⟩
          (fun _ => ⟨none, none, none⟩) 1 = true
       then Pixels.source (frameNum ⟨6, 2, 1, false, false, 60⟩ 1)
       else Pixels.interpolated (frameNum ⟨6, 2, 1, false, false, 60⟩ 1)
         (frameNum ⟨6, 2, 1, false, false, 60⟩ 1 + 1)
         (timestep ⟨6, 2, 1, false, false, 60⟩ 1)) :=
  skip_disabled_sentinel ⟨6, 2, 1, false, false, 60⟩
    (fun _ => ⟨none, none, none⟩) (fun _ => 0) 1 rfl (by decide) (by decide)

end RIFE
